import Mathlib

/-!
Shallow embedding of `genmc.py` (a Hex-Rays microcode display plugin for IDA)
and proofs about its behaviour.

The script is a thin adapter over host (IDA / Hex-Rays) APIs.  Host state that
the script merely reads (UI selection, kernel version string, byte flags,
the microcode generator's outcome, dialog results) is passed in explicitly as
environment records; the script's own control flow, string formatting and data
handling are translated line by line from the source.  Python exceptions are
modelled with `Except`: a value `.error e` means the Python code raises an
uncaught exception at that point.
-/

set_option linter.unusedVariables false

/-! ## Python string/number primitives used by the script -/

/-- Model of Python `s.split(".")` (as used in `is_ida_version`): splits on
every occurrence of the separator character, keeping empty pieces, and yields
`[""]` on the empty string, exactly as Python does. -/
def splitDots (s : String) : List String :=
  (s.toList.foldr
    (fun c acc =>
      if c = '.' then [] :: acc
      else
        match acc with
        | [] => [[c]]
        | g :: gs => (c :: g) :: gs)
    [[]]).map (fun g => String.mk g)

/-- Accumulator loop for decimal digit strings. -/
def digitsValAux : List Char → Nat → Option Nat
  | [], acc => some acc
  | c :: cs, acc =>
    if c.isDigit then digitsValAux cs (10 * acc + (c.toNat - 48)) else none

/-- Value of a non-empty all-digit character list; `none` otherwise. -/
def digitsVal : List Char → Option Nat
  | [] => none
  | l => digitsValAux l 0

/-- Model of Python `int(s)` on version-component strings: an optional sign
followed by at least one decimal digit; `none` models a raised `ValueError`. -/
def pyInt (s : String) : Option Int :=
  match s.toList with
  | '-' :: ds => (digitsVal ds).map (fun n => -(n : Int))
  | '+' :: ds => (digitsVal ds).map (fun n => (n : Int))
  | ds => (digitsVal ds).map (fun n => (n : Int))

/-- Model of Python `"%0<width>x" % n` for a nonnegative `n`: lowercase
hexadecimal digits of `n`, left-padded with `0` to at least `width`
characters. -/
def pyHexPad (width n : Nat) : String :=
  let s := Nat.toDigits 16 n
  String.mk (List.replicate (width - s.length) '0') ++ String.mk s

/-! ## Installer (`is_plugin`, `get_target_dir`, `install_plugin`) -/

/-- `genmc.wanted_name` from the plugin class. -/
def wanted_name : String := "genmc"

/-- Model of `get_target_dir()`: `os.path.join(get_user_idadir(), "plugins")`
joined with `wanted_name + ".py"`, with `os.path.join` modelled as
"/"-separated concatenation. -/
def get_target_dir (userIdaDir : String) : String :=
  userIdaDir ++ "/plugins/" ++ wanted_name ++ ".py"

/-- `ida_kernwin.ASKBTN_YES`. -/
def ASKBTN_YES : Int := 1

/-- Python exceptions that `install_plugin` can let escape. -/
inductive PyExc where
  | attributeError
deriving DecidableEq, Repr

/-- Host and filesystem state read by `install_plugin`:
`isPlugin` models `is_plugin()` (whether `__name__` contains `__plugins__`),
`isInstalled` models `is_installed()` (target file already present),
`ask_yn` is the button id returned by `kw.ask_yn`,
`usrdirExists` models `os.path.exists(usrdir)`,
`copyFails` tells whether `shutil.copy` raises,
`selfPath` is `SELF` (`__file__`) and `userIdaDir` is
`ida_diskio.get_user_idadir()`. -/
structure IEnv where
  isPlugin : Bool
  isInstalled : Bool
  ask_yn : Int
  usrdirExists : Bool
  copyFails : Bool
  selfPath : String
  userIdaDir : String

/-- Model of `install_plugin()`, returning the Python result (or an escaped
exception) together with the list of `kw.msg` log lines emitted.

Faithfulness note on the missing-directory branch: the source line 61 reads
`os.path.makedirs(usrdir)`.  Python's `os.path` module has no attribute
`makedirs` (the directory-creating function is `os.makedirs`), so evaluating
that expression raises `AttributeError` before any directory is created; the
surrounding `except OSError` clause does not match an `AttributeError`, so the
exception escapes `install_plugin`.  The embedding returns
`.error .attributeError` there. -/
def install_plugin (env : IEnv) : Except PyExc Bool × List String :=
  if env.isPlugin then
    (.ok false, ["Command not available. Plugin already installed.\n"])
  else if env.isInstalled ∧ env.ask_yn ≠ ASKBTN_YES then
    (.ok false, [])
  else
    let usrdir := env.userIdaDir ++ "/plugins"
    let copyingMsg :=
      "Copying script from \"" ++ env.selfPath ++ "\" to \"" ++ usrdir ++ "\" ..."
    if env.usrdirExists = false then
      (.error PyExc.attributeError, [copyingMsg])
    else if env.copyFails then
      (.ok false, [copyingMsg, "failed (copy)!\n"])
    else
      (.ok true, [copyingMsg, "done!\n"])

/-! ## Version check (`is_ida_version`, `is_compatible`) -/

/-- The `for i in xrange(count)` loop body of `is_ida_version`, run over the
paired components `zip kv rv` (whose length is `min (len kv) (len rv)`,
matching `count`).  A component that does not parse as an integer models the
`ValueError` Python's `int()` would raise (`.error ()`). -/
def verLoop : List (String × String) → Except Unit Bool
  | [] => .ok true
  | (k, r) :: rest =>
    match pyInt k, pyInt r with
    | some ki, some ri => if ki < ri then .ok false else verLoop rest
    | _, _ => .error ()

/-- Model of `is_ida_version(requested)`; the kernel version string returned
by `kw.get_kernel_version()` is passed explicitly as `kernel`.  The `xrange`
iteration is taken with Python-2 semantics (the script targets the Python-2
IDAPython of IDA 7.3, as the use of `xrange` shows). -/
def is_ida_version (kernel requested : String) : Except Unit Bool :=
  let rv := splitDots requested
  let kv := splitDots kernel
  let pairs := kv.zip rv
  if pairs.length = 0 then .ok false
  else verLoop pairs

/-- Model of `is_compatible()`: minimum IDA version "7.3" and the decompiler
present (`hexraysOk` models the result of `hr.init_hexrays_plugin()`; the
Python `and` makes it count only when the version check passed). -/
def is_compatible (kernel : String) (hexraysOk : Bool) : Except Unit Bool :=
  match is_ida_version kernel "7.3" with
  | .error e => .error e
  | .ok b => .ok (b && hexraysOk)

/-! ## Microcode printer (`printer_t`) and microcode object -/

/-- State of a `printer_t`: the accumulated list of printed lines `self.mc`. -/
structure printer_t where
  mc : List String
deriving DecidableEq, Repr

/-- `printer_t.__init__`: starts with an empty line list. -/
def printer_t.init : printer_t := { mc := [] }

/-- `printer_t.get_mc`. -/
def printer_t.get_mc (p : printer_t) : List String := p.mc

/-- The `_print` callback: appends the given line and returns 1. -/
def printer_t._print (p : printer_t) (indent : Int) (line : String) :
    printer_t × Int :=
  ({ mc := p.mc ++ [line] }, 1)

/-- The opaque host microcode object, abstracted by the sequence of text lines
its `_print` method emits through the printer callback. -/
structure mba_t where
  lines : List String
deriving DecidableEq, Repr

/-- Model of `mba._print(vp)`: the host calls the printer callback once per
line of the microcode text dump, in order. -/
def mba_t.dump (m : mba_t) (vp : printer_t) : printer_t :=
  m.lines.foldl (fun q l => (printer_t._print q 0 l).1) vp

/-! ## Maturity dialog (`ask_desired_maturity`) -/

/-- Hex-Rays maturity enum values (`hexrays.hpp`: `MMAT_ZERO = 0`, then in
declaration order). -/
def MMAT_GENERATED : Nat := 1

def MMAT_PREOPTIMIZED : Nat := 2

def MMAT_LOCOPT : Nat := 3

def MMAT_CALLS : Nat := 4

def MMAT_GLBOPT1 : Nat := 5

def MMAT_GLBOPT2 : Nat := 6

def MMAT_GLBOPT3 : Nat := 7

def MMAT_LVARS : Nat := 8

/-- Host bit constant `hr.MBA_SHORT`; only its identity (a fixed nonzero bit)
matters to the script, which merely ors it into the flag mask. -/
def MBA_SHORT : Nat := 512

/-- The `maturity_levels` table, exactly as listed in `ask_desired_maturity`. -/
def maturity_levels : List (String × Nat) :=
  [("MMAT_GENERATED", MMAT_GENERATED),
   ("MMAT_PREOPTIMIZED", MMAT_PREOPTIMIZED),
   ("MMAT_LOCOPT", MMAT_LOCOPT),
   ("MMAT_CALLS", MMAT_CALLS),
   ("MMAT_GLBOPT1", MMAT_GLBOPT1),
   ("MMAT_GLBOPT2", MMAT_GLBOPT2),
   ("MMAT_GLBOPT3", MMAT_GLBOPT3),
   ("MMAT_LVARS", MMAT_LVARS)]

/-- The checkbox group passed to `kw.Form.ChkGroupControl` in the form:
a single `flags_short` (MBA_SHORT) checkbox. -/
def form_checkboxes : List String := ["flags_short"]

/-- Model of `ask_desired_maturity()`.  The modal-form outcome is passed in:
`execute_result` is `form.Execute()` (1 on OK), `mat_lvl` the dropdown index
and `flags_short` the checkbox state.  On OK the selected name/enum pair is
looked up in `maturity_levels` (an out-of-range index would be a raised
`IndexError`, modelled `.error ()`; the dropdown control only produces valid
indices); the flag mask ors in `MBA_SHORT` exactly when the box is checked. -/
def ask_desired_maturity (execute_result : Int) (mat_lvl : Nat)
    (flags_short : Bool) :
    Except Unit (Option String × Option Nat × Nat) :=
  let flags := if flags_short then MBA_SHORT else 0
  if execute_result = 1 then
    match maturity_levels[mat_lvl]? with
    | some (text, mmat) => .ok (some text, some mmat, flags)
    | none => .error ()
  else
    .ok (none, none, flags)

/-! ## `show_microcode` -/

/-- A host function object (`ida_funcs.func_t`), as read by `show_microcode`. -/
structure func_t where
  start_ea : Nat
  end_ea : Nat
deriving DecidableEq, Repr

/-- The failure-info object `hr.hexrays_failure_t` as filled by the host
microcode generator: an error address `errea` and an error string `str`. -/
structure hexrays_failure_t where
  errea : Nat
  str : String
deriving DecidableEq, Repr

/-- Host and UI state read by `show_microcode`:
`sel`, `sel_sea`, `sel_eea` model `kw.read_range_selection(None)`;
`pfn` models `ida_funcs.get_func(kw.get_screen_ea())`;
`is64` models `ida_ida.inf_is_64bit()`;
`flagsAt` models `ida_bytes.get_flags` and `isCodeFlag` models
`ida_bytes.is_code` on a flag value;
`execute_result`, `mat_lvl`, `flags_short` are the maturity-form outcome
passed to `ask_desired_maturity`;
`gen` models `hr.gen_microcode` on (start, end, maturity): the returned
microcode object (or `none`) and the failure info written into `hf`;
`viewer_create` models `microcode_viewer_t.Create` on the widget title and
the line array. -/
structure SEnv where
  sel : Bool
  sel_sea : Nat
  sel_eea : Nat
  pfn : Option func_t
  is64 : Bool
  flagsAt : Nat → Nat
  isCodeFlag : Nat → Bool
  execute_result : Int
  mat_lvl : Nat
  flags_short : Bool
  gen : Nat → Nat → Nat → Option mba_t × hexrays_failure_t
  viewer_create : String → List String → Bool

/-- How many times `show_microcode` invoked `ask_desired_maturity` (the modal
maturity dialog) and `hr.gen_microcode` during one run. -/
structure STrace where
  askCalls : Nat
  genCalls : Nat
deriving DecidableEq, Repr

/-- The address range `show_microcode` works on: the selection if one exists,
otherwise the bounds of the function under the cursor (the code reaches this
point only when the selection or the function is present). -/
def sel_range (env : SEnv) : Nat × Nat :=
  match env.sel, env.pfn with
  | false, some f => (f.start_ea, f.end_ea)
  | _, _ => (env.sel_sea, env.sel_eea)

/-- Model of `show_microcode()`: the `(success, message)` pair it returns (or
an escaped exception), together with the dialog/generator call counts.
Control flow, messages and formatting follow the source line by line;
`mba.set_mba_flags(mba_flags)` only mutates the opaque host object and has no
further observable effect in the script, so it leaves no trace here. -/
def show_microcode (env : SEnv) : Except Unit (Bool × String) × STrace :=
  if env.sel = false ∧ env.pfn = none then
    (.ok (false, "Position cursor within a function or select range"),
     { askCalls := 0, genCalls := 0 })
  else
    let sea := (sel_range env).1
    let eea := (sel_range env).2
    let w := if env.is64 then 16 else 8
    if env.isCodeFlag (env.flagsAt sea) = false then
      (.ok (false, "The selected range must start with an instruction"),
       { askCalls := 0, genCalls := 0 })
    else
      match ask_desired_maturity env.execute_result env.mat_lvl env.flags_short with
      | .error e => (.error e, { askCalls := 1, genCalls := 0 })
      | .ok (textOpt, mmatOpt, mba_flags) =>
        if textOpt = none ∧ mmatOpt = none then
          (.ok (true, "Cancelled"), { askCalls := 1, genCalls := 0 })
        else
          match env.gen sea eea (mmatOpt.getD 0) with
          | (none, hf) =>
            (.ok (false, "0x" ++ pyHexPad w hf.errea ++ ": " ++ hf.str),
             { askCalls := 1, genCalls := 1 })
          | (some mba, _) =>
            let vp := mba_t.dump mba printer_t.init
            let title := "0x" ++ pyHexPad w sea ++ "-0x" ++ pyHexPad w eea
              ++ " (" ++ textOpt.getD "" ++ ")"
            if env.viewer_create ("Microcode: " ++ title) vp.get_mc = false then
              (.ok (false, "Error creating viewer"),
               { askCalls := 1, genCalls := 1 })
            else
              (.ok (true, "Successfully generated microcode for 0x"
                 ++ pyHexPad w sea ++ "..0x" ++ pyHexPad w eea),
               { askCalls := 1, genCalls := 1 })

/-! ## `create_mc_widget` and the plugin entry points -/

/-- The two host log channels used: `kw.msg` (info) and `kw.warning`. -/
inductive LogChannel where
  | msg
  | warning
deriving DecidableEq, Repr

/-- State read by `create_mc_widget`: the kernel version string, the
decompiler-present flag, and the state `show_microcode` consumes. -/
structure CEnv where
  kernel : String
  hexraysOk : Bool
  senv : SEnv

/-- Whether `create_mc_widget` invoked `show_microcode`. -/
structure CTrace where
  showCalled : Bool
deriving DecidableEq, Repr

/-- Model of `create_mc_widget()`: the returned success flag (or escaped
exception), the log lines with the channel each went to, and whether
`show_microcode` was invoked. -/
def create_mc_widget (env : CEnv) :
    Except Unit Bool × List (LogChannel × String) × CTrace :=
  match is_compatible env.kernel env.hexraysOk with
  | .error e => (.error e, [], { showCalled := false })
  | .ok false =>
    (.ok false,
     [(LogChannel.msg, wanted_name ++ ": Unsupported IDA / Hex-rays version\n")],
     { showCalled := false })
  | .ok true =>
    match show_microcode env.senv with
    | (.error e, _) => (.error e, [], { showCalled := true })
    | (.ok (success, message), _) =>
      (.ok success,
       [((if success then LogChannel.msg else LogChannel.warning),
         wanted_name ++ ": " ++ message ++ "\n")],
       { showCalled := true })

/-- `ida_idaapi.PLUGIN_SKIP`. -/
def PLUGIN_SKIP : Nat := 0

/-- `ida_idaapi.PLUGIN_OK`. -/
def PLUGIN_OK : Nat := 1

/-- Model of the plugin class's `init` callback:
`PLUGIN_OK` if `is_compatible()` else `PLUGIN_SKIP`. -/
def genmc_init (kernel : String) (hexraysOk : Bool) : Except Unit Nat :=
  match is_compatible kernel hexraysOk with
  | .error e => .error e
  | .ok b => .ok (if b then PLUGIN_OK else PLUGIN_SKIP)

/-! ## Concrete host states used to instantiate the theorems -/

/-- A concrete `hexrays_failure_t` as the host would fill it when
`gen_microcode` fails. -/
def hf0 : hexrays_failure_t := { errea := 4198400, str := "failure" }

/-- A concrete host state: a code selection `0x401000..0x401020` in a 64-bit
database, form accepted with index 0 and the checkbox clear, and a microcode
generator that fails with `hf0`. -/
def senv0 : SEnv :=
  { sel := true, sel_sea := 4198400, sel_eea := 4198432, pfn := none,
    is64 := true, flagsAt := fun _ => 1536, isCodeFlag := fun _ => true,
    execute_result := 1, mat_lvl := 0, flags_short := false,
    gen := fun _ _ _ => (none, hf0),
    viewer_create := fun _ _ => true }

/-- `senv0` inside a compatible IDA 7.3 session with the decompiler present. -/
def cenv0 : CEnv := { kernel := "7.3", hexraysOk := true, senv := senv0 }

/-- Like `senv0` but the user pressed Cancel in the maturity form. -/
def senv_cancel : SEnv := { senv0 with execute_result := 0 }

/-- Like `senv0` but the bytes at the range start are not code. -/
def senv_nocode : SEnv := { senv0 with isCodeFlag := fun _ => false }

/-- Like `senv0` but with no selection and no function under the cursor. -/
def senv_nosel : SEnv := { senv0 with sel := false }

/-! ## Helper lemmas -/

/-- Outcome of the maturity dialog when the form is accepted (Execute
returned 1) and the dropdown index is valid. -/
theorem ask_accepted (i : Nat) (c : Bool) (t : String) (m : Nat)
    (h : maturity_levels[i]? = some (t, m)) :
    ask_desired_maturity 1 i c =
      .ok (some t, some m, if c then MBA_SHORT else 0) := by
  simp [ask_desired_maturity, h]

/-- Outcome of the maturity dialog when the form was not accepted. -/
theorem ask_cancelled (r : Int) (i : Nat) (c : Bool) (h : r ≠ 1) :
    ask_desired_maturity r i c =
      .ok (none, none, if c then MBA_SHORT else 0) := by
  simp [ask_desired_maturity, h]

/-- Dumping a microcode object through a printer appends its lines, in order,
to the printer's accumulated list. -/
theorem dump_mc_append (l : List String) (vp : printer_t) :
    (mba_t.dump { lines := l } vp).mc = vp.mc ++ l := by
  induction l generalizing vp with
  | nil => simp [mba_t.dump]
  | cons x xs ih =>
    have step : mba_t.dump { lines := x :: xs } vp
        = mba_t.dump { lines := xs } { mc := vp.mc ++ [x] } := by
      simp [mba_t.dump, printer_t._print]
    rw [step, ih]
    simp

/-- The version loop accepts exactly when every paired component parses and
the kernel component is at least the requested one. -/
theorem verLoop_ok_true_iff (l : List (String × String)) :
    verLoop l = .ok true ↔
      ∀ p ∈ l, ∃ ki ri, pyInt p.1 = some ki ∧ pyInt p.2 = some ri ∧ ri ≤ ki := by
  induction l with
  | nil => simp [verLoop]
  | cons hd tl ih =>
    obtain ⟨k, r⟩ := hd
    simp only [verLoop]
    cases hk : pyInt k with
    | none =>
      constructor
      · intro h; exact absurd h (by simp)
      · intro h
        obtain ⟨ki, ri, hki, _, _⟩ := h (k, r) (List.mem_cons_self _ _)
        rw [hk] at hki; cases hki
    | some ki =>
      cases hr : pyInt r with
      | none =>
        constructor
        · intro h; exact absurd h (by simp)
        · intro h
          obtain ⟨ki2, ri2, _, hri, _⟩ := h (k, r) (List.mem_cons_self _ _)
          rw [hr] at hri; cases hri
      | some ri =>
        by_cases hlt : ki < ri
        · simp only [if_pos hlt]
          constructor
          · intro h; exact absurd h (by simp)
          · intro h
            obtain ⟨ki2, ri2, hki2, hri2, hle⟩ := h (k, r) (List.mem_cons_self _ _)
            rw [hk] at hki2; rw [hr] at hri2
            cases hki2; cases hri2
            omega
        · simp only [if_neg hlt]
          rw [ih]
          constructor
          · intro h p hp
            rcases List.mem_cons.mp hp with heq | hmem
            · subst heq
              exact ⟨ki, ri, hk, hr, by omega⟩
            · exact h p hmem
          · intro h p hp
            exact h p (List.mem_cons_of_mem _ hp)

/-- Under a valid dropdown index (which is all the dropdown control can
produce), `show_microcode` never raises: it returns a boolean/string pair. -/
theorem show_microcode_returns_pair (env : SEnv)
    (hm : env.mat_lvl < maturity_levels.length) :
    ∃ b s tr, show_microcode env = (.ok (b, s), tr) := by
  have hidx : maturity_levels[env.mat_lvl]? =
      some ((maturity_levels.get ⟨env.mat_lvl, hm⟩).1,
            (maturity_levels.get ⟨env.mat_lvl, hm⟩).2) := by
    rw [List.getElem?_eq_getElem hm]
    simp [List.get_eq_getElem]
  by_cases hr1 : env.execute_result = 1
  · simp only [show_microcode, ask_desired_maturity, hidx, hr1, if_pos,
      Option.getD_some]
    repeat' split
    all_goals exact ⟨_, _, _, rfl⟩
  · simp only [show_microcode, ask_desired_maturity, hidx, if_neg hr1,
      Option.getD_some]
    repeat' split
    all_goals exact ⟨_, _, _, rfl⟩

/-! ## The claims -/

/-- C1: the claim says that when the user plugin directory does not yet
exist, `install_plugin` creates it, copies the script into it and returns
True.  The code instead evaluates `os.path.makedirs(usrdir)`; Python's
`os.path` module has no `makedirs` attribute, so an `AttributeError` is
raised (and not caught by the `except OSError` clause): no directory is
created, nothing is copied, and the exception escapes.  This theorem
evaluates the model at such an invocation. -/
theorem install_plugin_missing_dir_raises :
    install_plugin
      { isPlugin := false, isInstalled := false, ask_yn := 0,
        usrdirExists := false, copyFails := false,
        selfPath := "/tmp/genmc.py", userIdaDir := "/home/u/.idapro" } =
      (.error PyExc.attributeError,
       ["Copying script from \"/tmp/genmc.py\" to \"/home/u/.idapro/plugins\" ..."]) :=
  rfl

/-- C2: the claim says every failure during directory creation or file copy
is caught inside `install_plugin` and turned into a False return.  The copy
half is true (first conjunct: a failing `shutil.copy` is caught by the bare
`except`, logged, and False is returned), but the directory-creation half is
not: on any run where the directory is absent, the `os.path.makedirs`
`AttributeError` escapes to the caller (second conjunct). -/
theorem install_plugin_exception_behaviour :
    install_plugin
      { isPlugin := false, isInstalled := false, ask_yn := 0,
        usrdirExists := true, copyFails := true,
        selfPath := "s", userIdaDir := "u" } =
      (.ok false,
       ["Copying script from \"s\" to \"u/plugins\" ...", "failed (copy)!\n"]) ∧
    (install_plugin
      { isPlugin := false, isInstalled := true, ask_yn := 1,
        usrdirExists := false, copyFails := false,
        selfPath := "s", userIdaDir := "u" }).1 =
      .error PyExc.attributeError :=
  ⟨rfl, rfl⟩

/-- C6: a `printer_t` starts with an empty line list, its `_print` callback
appends exactly the given line and returns 1, and after the host dumps a
microcode text buffer through it, `get_mc` returns the printed lines in
callback order. -/
theorem printer_t_accumulates :
    printer_t.init.mc = [] ∧
    (∀ (p : printer_t) (indent : Int) (line : String),
      printer_t._print p indent line = ({ mc := p.mc ++ [line] }, 1)) ∧
    (∀ lines : List String,
      (mba_t.dump { lines := lines } printer_t.init).get_mc = lines) := by
  refine ⟨rfl, fun p i l => rfl, fun lines => ?_⟩
  simp [printer_t.get_mc, dump_mc_append, printer_t.init]

/-- C7: the maturity dropdown lists exactly the eight maturity levels
MMAT_GENERATED .. MMAT_LVARS in source order, the checkbox group holds the
single MBA_SHORT checkbox, and an accepted form yields the name/enum pair at
the selected index with a flag mask of MBA_SHORT exactly when the box is
checked. -/
theorem ask_desired_maturity_spec :
    maturity_levels.map Prod.fst =
      ["MMAT_GENERATED", "MMAT_PREOPTIMIZED", "MMAT_LOCOPT", "MMAT_CALLS",
       "MMAT_GLBOPT1", "MMAT_GLBOPT2", "MMAT_GLBOPT3", "MMAT_LVARS"] ∧
    maturity_levels.map Prod.snd =
      [MMAT_GENERATED, MMAT_PREOPTIMIZED, MMAT_LOCOPT, MMAT_CALLS,
       MMAT_GLBOPT1, MMAT_GLBOPT2, MMAT_GLBOPT3, MMAT_LVARS] ∧
    form_checkboxes = ["flags_short"] ∧
    (∀ (i : Fin maturity_levels.length) (checked : Bool),
      ask_desired_maturity 1 i.val checked =
        .ok (some (maturity_levels.get i).1, some (maturity_levels.get i).2,
             if checked then MBA_SHORT else 0)) := by
  refine ⟨rfl, rfl, rfl, fun i c => ?_⟩
  refine ask_accepted i.val c _ _ ?_
  rw [List.getElem?_eq_getElem i.isLt]
  simp [List.get_eq_getElem]

/-- C8: `is_ida_version` accepts exactly when the compared dotted components
of the kernel version are each numerically at least the corresponding
component of the requested minimum (and there is at least one compared
component, every compared component parsing as an integer); in particular
kernel 8.2 against minimum 7.3 is rejected. -/
theorem is_ida_version_componentwise :
    (∀ kernel requested : String,
      is_ida_version kernel requested = .ok true ↔
        ((splitDots kernel).zip (splitDots requested) ≠ [] ∧
         ∀ p ∈ (splitDots kernel).zip (splitDots requested),
           ∃ ki ri, pyInt p.1 = some ki ∧ pyInt p.2 = some ri ∧ ri ≤ ki)) ∧
    is_ida_version "8.2" "7.3" = .ok false := by
  constructor
  · intro kernel requested
    simp only [is_ida_version]
    by_cases h : ((splitDots kernel).zip (splitDots requested)).length = 0
    · rw [if_pos h]
      have he : (splitDots kernel).zip (splitDots requested) = [] :=
        List.length_eq_zero.mp h
      simp [he]
    · rw [if_neg h, verLoop_ok_true_iff]
      have hne : (splitDots kernel).zip (splitDots requested) ≠ [] := by
        intro e
        exact h (by rw [e]; rfl)
      simp [hne]
  · rfl

/-- Witness for C8: kernel 7.10 meets minimum 7.3 componentwise (via the
first part of the theorem), while kernel 8.2 is rejected (second part). -/
theorem is_ida_version_componentwise_witness :
    is_ida_version "7.10" "7.3" = .ok true ∧
    is_ida_version "8.2" "7.3" = .ok false := by
  refine ⟨(is_ida_version_componentwise.1 "7.10" "7.3").mpr ⟨by decide, ?_⟩,
          is_ida_version_componentwise.2⟩
  intro p hp
  have e : (splitDots "7.10").zip (splitDots "7.3") = [("7", "7"), ("10", "3")] := by
    decide
  rw [e] at hp
  simp only [List.mem_cons, List.not_mem_nil, or_false] at hp
  rcases hp with heq | heq
  · subst heq
    exact ⟨7, 7, by decide, by decide, by decide⟩
  · subst heq
    exact ⟨10, 3, by decide, by decide, by decide⟩

/-- C10: with a range or function available but the bytes at the range start
not marked as code, `show_microcode` returns
(False, "The selected range must start with an instruction") with the
maturity dialog never shown and the generator never called (first part);
with no selection and no function under the cursor it returns
(False, "Position cursor within a function or select range") (second part). -/
theorem show_microcode_early_guards :
    (∀ env : SEnv,
      ¬(env.sel = false ∧ env.pfn = none) →
      env.isCodeFlag (env.flagsAt (sel_range env).1) = false →
      show_microcode env =
        (.ok (false, "The selected range must start with an instruction"),
         { askCalls := 0, genCalls := 0 })) ∧
    (∀ env : SEnv,
      env.sel = false → env.pfn = none →
      show_microcode env =
        (.ok (false, "Position cursor within a function or select range"),
         { askCalls := 0, genCalls := 0 })) := by
  constructor
  · intro env hsel hcode
    simp only [show_microcode]
    rw [if_neg hsel, if_pos hcode]
  · intro env h1 h2
    simp only [show_microcode]
    rw [if_pos ⟨h1, h2⟩]

/-- Witness for C10 at concrete host states: a non-code selection start, and
a cursor outside any function with no selection. -/
theorem show_microcode_early_guards_witness :
    show_microcode senv_nocode =
      (.ok (false, "The selected range must start with an instruction"),
       { askCalls := 0, genCalls := 0 }) ∧
    show_microcode senv_nosel =
      (.ok (false, "Position cursor within a function or select range"),
       { askCalls := 0, genCalls := 0 }) :=
  ⟨show_microcode_early_guards.1 senv_nocode (by decide) rfl,
   show_microcode_early_guards.2 senv_nosel rfl rfl⟩

/-- C5: when the host generator returns no microcode object,
`show_microcode` returns a failure pair whose message is the failure
object's error address formatted as 16 lowercase hex digits on a 64-bit
database (8 otherwise) followed by the failure object's error string, with
the dialog and the generator each invoked exactly once (no retry). -/
theorem show_microcode_gen_failure_message (env : SEnv) (t : String) (m : Nat)
    (hf : hexrays_failure_t)
    (hsel : ¬(env.sel = false ∧ env.pfn = none))
    (hcode : env.isCodeFlag (env.flagsAt (sel_range env).1) = true)
    (hok : env.execute_result = 1)
    (hidx : maturity_levels[env.mat_lvl]? = some (t, m))
    (hgen : env.gen (sel_range env).1 (sel_range env).2 m = (none, hf)) :
    show_microcode env =
      (.ok (false, "0x" ++ pyHexPad (if env.is64 then 16 else 8) hf.errea
            ++ ": " ++ hf.str),
       { askCalls := 1, genCalls := 1 }) := by
  simp only [show_microcode, hok,
    ask_accepted env.mat_lvl env.flags_short t m hidx, Option.getD_some, hgen,
    hcode]
  rw [if_neg hsel]
  simp

/-- Witness for C5: at `senv0` (64-bit database, generator failing at address
0x401000 with error string "failure") the returned message is
"0x0000000000401000: failure". -/
theorem show_microcode_gen_failure_message_witness :
    show_microcode senv0 =
      (.ok (false, "0x0000000000401000: failure"),
       { askCalls := 1, genCalls := 1 }) :=
  show_microcode_gen_failure_message senv0 "MMAT_GENERATED" MMAT_GENERATED hf0
    (by decide) rfl rfl rfl rfl

/-- C9: when the user cancels the maturity dialog, `show_microcode` returns
(True, "Cancelled") with the generator never invoked, and (the flag being
True) `create_mc_widget` reports the message on the info channel `kw.msg`. -/
theorem show_microcode_cancelled_spec (env : SEnv) (kernel : String) (hx : Bool)
    (hsel : ¬(env.sel = false ∧ env.pfn = none))
    (hcode : env.isCodeFlag (env.flagsAt (sel_range env).1) = true)
    (hcancel : env.execute_result ≠ 1)
    (hcompat : is_compatible kernel hx = .ok true) :
    show_microcode env =
      (.ok (true, "Cancelled"), { askCalls := 1, genCalls := 0 }) ∧
    create_mc_widget { kernel := kernel, hexraysOk := hx, senv := env } =
      (.ok true, [(LogChannel.msg, "genmc: Cancelled\n")],
       { showCalled := true }) := by
  have h1 : show_microcode env =
      (.ok (true, "Cancelled"), { askCalls := 1, genCalls := 0 }) := by
    simp only [show_microcode, ask_cancelled env.execute_result env.mat_lvl
      env.flags_short hcancel, hcode]
    rw [if_neg hsel]
    simp
  refine ⟨h1, ?_⟩
  simp only [create_mc_widget, hcompat, h1]
  rfl

/-- Witness for C9: cancelling the form at `senv_cancel` in a compatible
session. -/
theorem show_microcode_cancelled_spec_witness :
    show_microcode senv_cancel =
      (.ok (true, "Cancelled"), { askCalls := 1, genCalls := 0 }) ∧
    create_mc_widget { kernel := "7.3", hexraysOk := true, senv := senv_cancel } =
      (.ok true, [(LogChannel.msg, "genmc: Cancelled\n")],
       { showCalled := true }) :=
  show_microcode_cancelled_spec senv_cancel "7.3" true (by decide) rfl
    (by decide) rfl

/-- C4: when the compatibility check fails, `create_mc_widget` logs the
unsupported-version message and returns False without invoking
`show_microcode`, and the plugin `init` callback yields PLUGIN_SKIP, which
differs from PLUGIN_OK. -/
theorem incompatible_short_circuits (kernel : String) (hx : Bool) (senv : SEnv)
    (h : is_compatible kernel hx = .ok false) :
    create_mc_widget { kernel := kernel, hexraysOk := hx, senv := senv } =
      (.ok false,
       [(LogChannel.msg, "genmc: Unsupported IDA / Hex-rays version\n")],
       { showCalled := false }) ∧
    genmc_init kernel hx = .ok PLUGIN_SKIP ∧
    PLUGIN_SKIP ≠ PLUGIN_OK := by
  refine ⟨?_, ?_, by decide⟩
  · simp only [create_mc_widget, h]
    rfl
  · simp only [genmc_init, h]
    rfl

/-- Witness for C4: an IDA 7.2 kernel fails the 7.3 minimum even with the
decompiler present. -/
theorem incompatible_short_circuits_witness :
    create_mc_widget { kernel := "7.2", hexraysOk := true, senv := senv0 } =
      (.ok false,
       [(LogChannel.msg, "genmc: Unsupported IDA / Hex-rays version\n")],
       { showCalled := false }) ∧
    genmc_init "7.2" true = .ok PLUGIN_SKIP ∧
    PLUGIN_SKIP ≠ PLUGIN_OK :=
  incompatible_short_circuits "7.2" true senv0 rfl

/-- C3: in a compatible session (with the valid dropdown index the control
guarantees), `show_microcode` returns a boolean/string pair, and
`create_mc_widget` logs exactly that message, prefixed with the plugin name,
through `kw.msg` exactly when the flag is True and through `kw.warning`
exactly when it is False, returning the flag itself. -/
theorem create_mc_widget_channel_spec (env : CEnv)
    (hc : is_compatible env.kernel env.hexraysOk = .ok true)
    (hm : env.senv.mat_lvl < maturity_levels.length) :
    ∃ b s,
      (show_microcode env.senv).1 = .ok (b, s) ∧
      create_mc_widget env =
        (.ok b,
         [((if b then LogChannel.msg else LogChannel.warning),
           wanted_name ++ ": " ++ s ++ "\n")],
         { showCalled := true }) ∧
      ((if b then LogChannel.msg else LogChannel.warning) = LogChannel.msg
        ↔ b = true) ∧
      ((if b then LogChannel.msg else LogChannel.warning) = LogChannel.warning
        ↔ b = false) := by
  obtain ⟨b, s, tr, hrun⟩ := show_microcode_returns_pair env.senv hm
  refine ⟨b, s, by rw [hrun], ?_, ?_, ?_⟩
  · simp only [create_mc_widget, hc, hrun]
  · cases b <;> simp
  · cases b <;> simp

/-- Witness for C3 at the concrete compatible session `cenv0`. -/
theorem create_mc_widget_channel_spec_witness :
    ∃ b s,
      (show_microcode cenv0.senv).1 = .ok (b, s) ∧
      create_mc_widget cenv0 =
        (.ok b,
         [((if b then LogChannel.msg else LogChannel.warning),
           wanted_name ++ ": " ++ s ++ "\n")],
         { showCalled := true }) ∧
      ((if b then LogChannel.msg else LogChannel.warning) = LogChannel.msg
        ↔ b = true) ∧
      ((if b then LogChannel.msg else LogChannel.warning) = LogChannel.warning
        ↔ b = false) :=
  create_mc_widget_channel_spec cenv0 rfl (by decide)
